import Mathlib

/-!
Shallow embedding of the two slide-export scripts of the repository
(`src/backend/src/exportSlides.py` and `src/backend/src/exportSlidesMacro.py`).

Both scripts drive an external office-automation host over a socket; the
host's behaviour (whether each remote call succeeds, how many slides the
document has, whether a slide-show controller is active) is modelled by an
explicit `Host` record.  A run of a script is modelled as a pure function
from the arguments and the host to a boolean result together with a trace of
observable events (connection attempt, document-load request, file writes,
save, close, stderr lines).  Exceptions raised by remote calls are modelled
by `Option String` fields of the host: `some m` means the call raises an
exception whose message is `m`; the scripts' `try/except` wrappers catch it,
print `"Error: " ++ m` to stderr and return `false`, exactly as the Python
code does.
-/

namespace SlideExport

/-- Observable events of a run: attempting the socket connection, issuing a
document-load request (url, target frame, search flags, media-descriptor
properties), writing an exported image file (destination url, 0-based slide
index, format), saving/storing the document, closing the document (with the
boolean argument passed to `close`), and printing a line to stderr. -/
inductive Event where
  | connect : Event
  | load (url target : String) (flags : Nat) (props : List (String × Bool)) : Event
  | write (url : String) (slideIndex : Nat) (format : String) : Event
  | save : Event
  | close (arg : Bool) : Event
  | errLine (s : String) : Event
deriving DecidableEq, Repr

/-- State of the external automation host for one invocation: the current
working directory (used by `os.path.abspath`), whether each remote call
raises an exception (`some message`) or succeeds (`none`), the number of
slides of the loaded document, and the truthiness of
`getCurrentController().getSlideShowController()`. -/
structure Host where
  cwd : String
  connectErr : Option String
  desktopErr : Option String
  loadErr : Option String
  presErr : Option String
  ctrlErr : Option String
  slideShow : Bool
  slideCount : Nat
  exportErr : Nat → Option String
  closeErr : Option String

/-- Result of one call of an export function: the boolean it returns and the
trace of observable events it produced. -/
structure RunResult where
  ok : Bool
  trace : List Event
deriving DecidableEq, Repr

/-- `os.path.join` for the cases arising here (the second component is never
an absolute path). -/
def osPathJoin (a b : String) : String :=
  if a = "" then b
  else if a.data.getLast? = some '/' then a ++ b
  else a ++ "/" ++ b

/-- `os.path.abspath`: resolve a relative path against the working
directory. -/
def abspath (cwd p : String) : String :=
  if p.data.head? = some '/' then p else osPathJoin cwd p

/-- `uno.systemPathToFileUrl`. -/
def systemPathToFileUrl (p : String) : String := "file://" ++ p

/-- Zero-padding of the Python format `{n:03d}` for `n ≥ 0`. -/
def pad3 (n : Nat) : String :=
  if n < 10 then "00" ++ toString n
  else if n < 100 then "0" ++ toString n
  else toString n

/-- The output filename `f"slide_{i+1:03d}.png"` for 0-based slide index `i`. -/
def slideFileName (i : Nat) : String := "slide_" ++ pad3 (i + 1) ++ ".png"

/-- Destination url of the export of the slide with 0-based index `i`:
`uno.systemPathToFileUrl(os.path.abspath(os.path.join(output_dir, f"slide_{i+1:03d}.png")))`. -/
def slideUrl (cwd output_dir : String) (i : Nat) : String :=
  systemPathToFileUrl (abspath cwd (osPathJoin output_dir (slideFileName i)))

/-- The per-slide export loop `for i in range(count): ... slide.export(...)`,
starting at index `i` with `n` iterations left.  Returns the write events of
the successful exports, in order, together with `some m` if some
`slide.export` call raised an exception with message `m` (ending the loop
there) and `none` if all iterations succeeded. -/
def exportLoop (cwd output_dir : String) (exportErr : Nat → Option String) :
    Nat → Nat → List Event × Option String
  | _, 0 => ([], none)
  | i, n + 1 =>
    match exportErr i with
    | some m => ([], some m)
    | none =>
      let rest := exportLoop cwd output_dir exportErr (i + 1) n
      (Event.write (slideUrl cwd output_dir i) i "png" :: rest.1, rest.2)

/-- `export_slides_to_png` of `src/backend/src/exportSlides.py`: connect to
the host, create the desktop, load the document at the input file's url into
`"_blank"` with search flags `0` and the single property `Hidden = True`,
get the presentation and its slides, export each slide to
`slide_{i+1:03d}.png`, then `document.close(True)` and return `True`; any
exception is caught, `f"Error: {e}"` is printed to stderr, and `False` is
returned. -/
def export_slides_to_png (input_file output_dir : String) (h : Host) : RunResult :=
  match h.connectErr with
  | some m => ⟨false, [Event.connect, Event.errLine ("Error: " ++ m)]⟩
  | none =>
  match h.desktopErr with
  | some m => ⟨false, [Event.connect, Event.errLine ("Error: " ++ m)]⟩
  | none =>
  match h.loadErr with
  | some m =>
    ⟨false, [Event.connect,
      Event.load (systemPathToFileUrl (abspath h.cwd input_file)) "_blank" 0 [("Hidden", true)],
      Event.errLine ("Error: " ++ m)]⟩
  | none =>
  match h.presErr with
  | some m =>
    ⟨false, [Event.connect,
      Event.load (systemPathToFileUrl (abspath h.cwd input_file)) "_blank" 0 [("Hidden", true)],
      Event.errLine ("Error: " ++ m)]⟩
  | none =>
  match (exportLoop h.cwd output_dir h.exportErr 0 h.slideCount).2 with
  | some m =>
    ⟨false, Event.connect ::
      Event.load (systemPathToFileUrl (abspath h.cwd input_file)) "_blank" 0 [("Hidden", true)] ::
      (exportLoop h.cwd output_dir h.exportErr 0 h.slideCount).1 ++
        [Event.errLine ("Error: " ++ m)]⟩
  | none =>
  match h.closeErr with
  | some m =>
    ⟨false, Event.connect ::
      Event.load (systemPathToFileUrl (abspath h.cwd input_file)) "_blank" 0 [("Hidden", true)] ::
      (exportLoop h.cwd output_dir h.exportErr 0 h.slideCount).1 ++
        [Event.errLine ("Error: " ++ m)]⟩
  | none =>
    ⟨true, Event.connect ::
      Event.load (systemPathToFileUrl (abspath h.cwd input_file)) "_blank" 0 [("Hidden", true)] ::
      (exportLoop h.cwd output_dir h.exportErr 0 h.slideCount).1 ++ [Event.close true]⟩

/-- `export_slides` of `src/backend/src/exportSlidesMacro.py`: connect to the
host, create the desktop, load the document at the input file's url into
`"_blank"` with search flags `0` and an empty property tuple, call
`doc.getCurrentController().getSlideShowController()`; only if that value is
falsy, get the presentation from the presentation supplier and export each
slide to `slide_{i+1:03d}.png`; in either case `doc.close(True)` and return
`True`; any exception is caught, `f"Error: {e}"` is printed to stderr, and
`False` is returned. -/
def export_slides (input_file output_dir : String) (h : Host) : RunResult :=
  match h.connectErr with
  | some m => ⟨false, [Event.connect, Event.errLine ("Error: " ++ m)]⟩
  | none =>
  match h.desktopErr with
  | some m => ⟨false, [Event.connect, Event.errLine ("Error: " ++ m)]⟩
  | none =>
  match h.loadErr with
  | some m =>
    ⟨false, [Event.connect,
      Event.load (systemPathToFileUrl (abspath h.cwd input_file)) "_blank" 0 [],
      Event.errLine ("Error: " ++ m)]⟩
  | none =>
  match h.ctrlErr with
  | some m =>
    ⟨false, [Event.connect,
      Event.load (systemPathToFileUrl (abspath h.cwd input_file)) "_blank" 0 [],
      Event.errLine ("Error: " ++ m)]⟩
  | none =>
  if h.slideShow then
    match h.closeErr with
    | some m =>
      ⟨false, [Event.connect,
        Event.load (systemPathToFileUrl (abspath h.cwd input_file)) "_blank" 0 [],
        Event.errLine ("Error: " ++ m)]⟩
    | none =>
      ⟨true, [Event.connect,
        Event.load (systemPathToFileUrl (abspath h.cwd input_file)) "_blank" 0 [],
        Event.close true]⟩
  else
    match h.presErr with
    | some m =>
      ⟨false, [Event.connect,
        Event.load (systemPathToFileUrl (abspath h.cwd input_file)) "_blank" 0 [],
        Event.errLine ("Error: " ++ m)]⟩
    | none =>
    match (exportLoop h.cwd output_dir h.exportErr 0 h.slideCount).2 with
    | some m =>
      ⟨false, Event.connect ::
        Event.load (systemPathToFileUrl (abspath h.cwd input_file)) "_blank" 0 [] ::
        (exportLoop h.cwd output_dir h.exportErr 0 h.slideCount).1 ++
          [Event.errLine ("Error: " ++ m)]⟩
    | none =>
    match h.closeErr with
    | some m =>
      ⟨false, Event.connect ::
        Event.load (systemPathToFileUrl (abspath h.cwd input_file)) "_blank" 0 [] ::
        (exportLoop h.cwd output_dir h.exportErr 0 h.slideCount).1 ++
          [Event.errLine ("Error: " ++ m)]⟩
    | none =>
      ⟨true, Event.connect ::
        Event.load (systemPathToFileUrl (abspath h.cwd input_file)) "_blank" 0 [] ::
        (exportLoop h.cwd output_dir h.exportErr 0 h.slideCount).1 ++ [Event.close true]⟩

/-- The `if __name__ == "__main__"` block of `exportSlides.py`: with exactly
two positional arguments, run `export_slides_to_png` and exit 0 on `True`
and 1 on `False`; otherwise print the usage line to stderr and exit 1.
`argv` includes the program name, so the good case is `argv.length = 3`. -/
def export_slides_to_png_main (argv : List String) (h : Host) : Nat × List Event :=
  match argv with
  | [_, input_file, output_dir] =>
    let r := export_slides_to_png input_file output_dir h
    (if r.ok then 0 else 1, r.trace)
  | _ =>
    (1, [Event.errLine "Usage: python exportSlides.py <input_pptx> <output_dir>"])

/-- The `if __name__ == "__main__"` block of `exportSlidesMacro.py`: with
exactly two positional arguments, run `export_slides` and exit 0 on `True`
and 1 on `False`; otherwise print the usage line to stderr and exit 1. -/
def export_slides_main (argv : List String) (h : Host) : Nat × List Event :=
  match argv with
  | [_, input_file, output_dir] =>
    let r := export_slides input_file output_dir h
    (if r.ok then 0 else 1, r.trace)
  | _ =>
    (1, [Event.errLine "Usage: python exportSlidesMacro.py <input_pptx> <output_dir>"])

/-- The file writes of a trace: destination url and 0-based slide index of
each `write` event, in order. -/
def writesOf (t : List Event) : List (String × Nat) :=
  t.filterMap fun e =>
    match e with
    | Event.write u i _ => some (u, i)
    | _ => none

/-- The stderr lines of a trace, in order. -/
def errLinesOf (t : List Event) : List String :=
  t.filterMap fun e =>
    match e with
    | Event.errLine s => some s
    | _ => none

/-- The boolean arguments of the close calls of a trace, in order. -/
def closesOf (t : List Event) : List Bool :=
  t.filterMap fun e =>
    match e with
    | Event.close b => some b
    | _ => none

/-- The document-load requests of a trace. -/
def loadsOf (t : List Event) : List (String × String × Nat × List (String × Bool)) :=
  t.filterMap fun e =>
    match e with
    | Event.load u tgt f p => some (u, tgt, f, p)
    | _ => none

/-- The expected write list of a fully successful export of `n` slides:
`slide_001.png` through `slide_{n:03d}.png`, file `k` from slide `k - 1`. -/
def expectedWrites (cwd output_dir : String) (n : Nat) : List (String × Nat) :=
  (List.range n).map fun i => (slideUrl cwd output_dir i, i)

/-- A host on which every remote call succeeds, with `n` slides and a falsy
slide-show controller. -/
def okHost (n : Nat) : Host :=
  ⟨"/work", none, none, none, none, none, false, n, fun _ => none, none⟩

/-- A host with 3 slides on which exporting the second slide (0-based index 1)
raises an exception. -/
def exportFailHost : Host :=
  { okHost 3 with exportErr := fun j => if j = 1 then some "disk full" else none }

@[simp]
theorem writesOf_nil : writesOf [] = [] := rfl

@[simp]
theorem writesOf_cons (e : Event) (t : List Event) :
    writesOf (e :: t) =
      (match e with | Event.write u i _ => [(u, i)] | _ => []) ++ writesOf t := by
  cases e <;> simp [writesOf, List.filterMap_cons]

@[simp]
theorem writesOf_append (s t : List Event) :
    writesOf (s ++ t) = writesOf s ++ writesOf t := by
  simp [writesOf, List.filterMap_append]

@[simp]
theorem errLinesOf_nil : errLinesOf [] = [] := rfl

@[simp]
theorem errLinesOf_cons (e : Event) (t : List Event) :
    errLinesOf (e :: t) =
      (match e with | Event.errLine s => [s] | _ => []) ++ errLinesOf t := by
  cases e <;> simp [errLinesOf, List.filterMap_cons]

@[simp]
theorem errLinesOf_append (s t : List Event) :
    errLinesOf (s ++ t) = errLinesOf s ++ errLinesOf t := by
  simp [errLinesOf, List.filterMap_append]

@[simp]
theorem closesOf_nil : closesOf [] = [] := rfl

@[simp]
theorem closesOf_cons (e : Event) (t : List Event) :
    closesOf (e :: t) =
      (match e with | Event.close b => [b] | _ => []) ++ closesOf t := by
  cases e <;> simp [closesOf, List.filterMap_cons]

@[simp]
theorem closesOf_append (s t : List Event) :
    closesOf (s ++ t) = closesOf s ++ closesOf t := by
  simp [closesOf, List.filterMap_append]

@[simp]
theorem loadsOf_nil : loadsOf [] = [] := rfl

@[simp]
theorem loadsOf_cons (e : Event) (t : List Event) :
    loadsOf (e :: t) =
      (match e with | Event.load u tgt f p => [(u, tgt, f, p)] | _ => []) ++ loadsOf t := by
  cases e <;> simp [loadsOf, List.filterMap_cons]

@[simp]
theorem loadsOf_append (s t : List Event) :
    loadsOf (s ++ t) = loadsOf s ++ loadsOf t := by
  simp [loadsOf, List.filterMap_append]

theorem exportLoop_closes (cwd out : String) (ee : Nat → Option String) (n : Nat) :
    ∀ i, closesOf (exportLoop cwd out ee i n).1 = [] := by
  induction n with
  | zero => intro i; rfl
  | succ n ih =>
    intro i
    simp only [exportLoop]
    cases ee i with
    | some m => rfl
    | none => simpa [closesOf] using ih (i + 1)

theorem exportLoop_errLines (cwd out : String) (ee : Nat → Option String) (n : Nat) :
    ∀ i, errLinesOf (exportLoop cwd out ee i n).1 = [] := by
  induction n with
  | zero => intro i; rfl
  | succ n ih =>
    intro i
    simp only [exportLoop]
    cases ee i with
    | some m => rfl
    | none => simpa [errLinesOf] using ih (i + 1)

theorem exportLoop_loads (cwd out : String) (ee : Nat → Option String) (n : Nat) :
    ∀ i, loadsOf (exportLoop cwd out ee i n).1 = [] := by
  induction n with
  | zero => intro i; rfl
  | succ n ih =>
    intro i
    simp only [exportLoop]
    cases ee i with
    | some m => rfl
    | none => simpa [loadsOf] using ih (i + 1)

theorem exportLoop_no_save (cwd out : String) (ee : Nat → Option String) (n : Nat) :
    ∀ i, Event.save ∉ (exportLoop cwd out ee i n).1 := by
  induction n with
  | zero => intro i; simp [exportLoop]
  | succ n ih =>
    intro i
    simp only [exportLoop]
    cases ee i with
    | some m => simp
    | none => simpa using ih (i + 1)

theorem exportLoop_none_eq (cwd out : String) (ee : Nat → Option String) (n : Nat) :
    ∀ i, (exportLoop cwd out ee i n).2 = none →
      (exportLoop cwd out ee i n).1 =
        (List.range' i n).map fun k => Event.write (slideUrl cwd out k) k "png" := by
  induction n with
  | zero => intro i _; rfl
  | succ n ih =>
    intro i hnone
    simp only [exportLoop] at hnone ⊢
    cases h0 : ee i with
    | some m => rw [h0] at hnone; simp at hnone
    | none =>
      rw [h0] at hnone
      simp only at hnone
      show Event.write (slideUrl cwd out i) i "png" :: (exportLoop cwd out ee (i + 1) n).1 =
        List.map (fun k => Event.write (slideUrl cwd out k) k "png") (List.range' i (n + 1))
      rw [List.range'_succ, List.map_cons]
      exact congrArg (List.cons _) (ih (i + 1) hnone)

theorem exportLoop_fail_eq (cwd out : String) (ee : Nat → Option String) (m : String) :
    ∀ k i n, (∀ j, j < k → ee (i + j) = none) → ee (i + k) = some m → k < n →
      exportLoop cwd out ee i n =
        ((List.range' i k).map (fun j => Event.write (slideUrl cwd out j) j "png"), some m) := by
  intro k
  induction k with
  | zero =>
    intro i n _ hfail hlt
    cases n with
    | zero => omega
    | succ n =>
      simp only [exportLoop]
      rw [show i + 0 = i from rfl] at hfail
      rw [hfail]
      rfl
  | succ k ih =>
    intro i n hprev hfail hlt
    cases n with
    | zero => omega
    | succ n =>
      have h0 : ee i = none := by simpa using hprev 0 (Nat.succ_pos k)
      simp only [exportLoop]
      rw [h0]
      have hrec := ih (i + 1) n
        (fun j hj => by
          have := hprev (j + 1) (Nat.succ_lt_succ hj)
          simpa [Nat.add_comm, Nat.add_assoc, Nat.add_left_comm] using this)
        (by
          have : i + 1 + k = i + (k + 1) := by omega
          rw [this]; exact hfail)
        (by omega)
      rw [hrec]
      simp [List.range'_succ]

theorem writesOf_map_write (u : Nat → String) (l : List Nat) :
    writesOf (l.map fun k => Event.write (u k) k "png") = l.map fun k => (u k, k) := by
  induction l with
  | nil => rfl
  | cons a l ih => simp [writesOf, List.filterMap_cons] at ih ⊢; exact ih

theorem errLinesOf_map_write (u : Nat → String) (l : List Nat) :
    errLinesOf (l.map fun k => Event.write (u k) k "png") = [] := by
  induction l with
  | nil => rfl
  | cons a l ih => simpa [errLinesOf, List.filterMap_cons] using ih

theorem closesOf_map_write (u : Nat → String) (l : List Nat) :
    closesOf (l.map fun k => Event.write (u k) k "png") = [] := by
  induction l with
  | nil => rfl
  | cons a l ih => simpa [closesOf, List.filterMap_cons] using ih

theorem png_loads (input_file output_dir : String) (h : Host) :
    ∀ req ∈ loadsOf (export_slides_to_png input_file output_dir h).trace,
      req = (systemPathToFileUrl (abspath h.cwd input_file), "_blank", 0,
        [("Hidden", true)]) := by
  unfold export_slides_to_png
  cases h.connectErr <;> cases h.desktopErr <;> cases h.loadErr <;> cases h.presErr <;>
    cases (exportLoop h.cwd output_dir h.exportErr 0 h.slideCount).2 <;> cases h.closeErr <;>
    intro req hreq <;> simp [exportLoop_loads] at hreq <;> first | exact hreq | simp [hreq]

theorem slides_loads (input_file output_dir : String) (h : Host) :
    ∀ req ∈ loadsOf (export_slides input_file output_dir h).trace,
      req = (systemPathToFileUrl (abspath h.cwd input_file), "_blank", 0,
        ([] : List (String × Bool))) := by
  unfold export_slides
  cases h.connectErr <;> cases h.desktopErr <;> cases h.loadErr <;> cases h.ctrlErr <;>
    cases h.slideShow <;> cases h.presErr <;>
    cases (exportLoop h.cwd output_dir h.exportErr 0 h.slideCount).2 <;> cases h.closeErr <;>
    intro req hreq <;> simp [exportLoop_loads] at hreq <;> first | exact hreq | simp [hreq]

theorem png_no_save (input_file output_dir : String) (h : Host) :
    Event.save ∉ (export_slides_to_png input_file output_dir h).trace := by
  unfold export_slides_to_png
  cases h.connectErr <;> cases h.desktopErr <;> cases h.loadErr <;> cases h.presErr <;>
    cases (exportLoop h.cwd output_dir h.exportErr 0 h.slideCount).2 <;> cases h.closeErr <;>
    simp [exportLoop_no_save]

theorem slides_no_save (input_file output_dir : String) (h : Host) :
    Event.save ∉ (export_slides input_file output_dir h).trace := by
  unfold export_slides
  cases h.connectErr <;> cases h.desktopErr <;> cases h.loadErr <;> cases h.ctrlErr <;>
    cases h.slideShow <;> cases h.presErr <;>
    cases (exportLoop h.cwd output_dir h.exportErr 0 h.slideCount).2 <;> cases h.closeErr <;>
    simp [exportLoop_no_save]

theorem png_success_trace (input_file output_dir : String) (h : Host)
    (hok : (export_slides_to_png input_file output_dir h).ok = true) :
    (export_slides_to_png input_file output_dir h).trace =
      Event.connect ::
        Event.load (systemPathToFileUrl (abspath h.cwd input_file)) "_blank" 0
          [("Hidden", true)] ::
        (exportLoop h.cwd output_dir h.exportErr 0 h.slideCount).1 ++ [Event.close true] ∧
    (exportLoop h.cwd output_dir h.exportErr 0 h.slideCount).2 = none := by
  revert hok
  unfold export_slides_to_png
  cases h.connectErr <;> cases h.desktopErr <;> cases h.loadErr <;> cases h.presErr <;>
    cases (exportLoop h.cwd output_dir h.exportErr 0 h.slideCount).2 <;> cases h.closeErr <;>
    intro hok <;> first | exact ⟨rfl, rfl⟩ | simp at hok

theorem slides_success_trace (input_file output_dir : String) (h : Host)
    (hshow : h.slideShow = false)
    (hok : (export_slides input_file output_dir h).ok = true) :
    (export_slides input_file output_dir h).trace =
      Event.connect ::
        Event.load (systemPathToFileUrl (abspath h.cwd input_file)) "_blank" 0 [] ::
        (exportLoop h.cwd output_dir h.exportErr 0 h.slideCount).1 ++ [Event.close true] ∧
    (exportLoop h.cwd output_dir h.exportErr 0 h.slideCount).2 = none := by
  revert hok
  unfold export_slides
  rw [hshow]
  cases h.connectErr <;> cases h.desktopErr <;> cases h.loadErr <;> cases h.ctrlErr <;>
    cases h.presErr <;>
    cases (exportLoop h.cwd output_dir h.exportErr 0 h.slideCount).2 <;> cases h.closeErr <;>
    simp <;> intro hok <;> first | exact ⟨rfl, rfl⟩ | simp at hok

theorem slides_success_trace_show (input_file output_dir : String) (h : Host)
    (hshow : h.slideShow = true)
    (hok : (export_slides input_file output_dir h).ok = true) :
    (export_slides input_file output_dir h).trace =
      [Event.connect,
       Event.load (systemPathToFileUrl (abspath h.cwd input_file)) "_blank" 0 [],
       Event.close true] := by
  revert hok
  unfold export_slides
  rw [hshow]
  cases h.connectErr <;> cases h.desktopErr <;> cases h.loadErr <;> cases h.ctrlErr <;>
    cases h.closeErr <;> simp <;> intro hok <;> first | rfl | simp at hok

theorem png_fail_iff (input_file output_dir : String) (h : Host) :
    (export_slides_to_png input_file output_dir h).ok = false ↔
      ∃ m, errLinesOf (export_slides_to_png input_file output_dir h).trace =
        ["Error: " ++ m] := by
  unfold export_slides_to_png
  cases h.connectErr <;> cases h.desktopErr <;> cases h.loadErr <;> cases h.presErr <;>
    cases (exportLoop h.cwd output_dir h.exportErr 0 h.slideCount).2 <;> cases h.closeErr <;>
    simp [exportLoop_errLines] <;> exact ⟨_, rfl⟩

theorem slides_fail_iff (input_file output_dir : String) (h : Host) :
    (export_slides input_file output_dir h).ok = false ↔
      ∃ m, errLinesOf (export_slides input_file output_dir h).trace =
        ["Error: " ++ m] := by
  unfold export_slides
  cases h.connectErr <;> cases h.desktopErr <;> cases h.loadErr <;> cases h.ctrlErr <;>
    cases h.slideShow <;> cases h.presErr <;>
    cases (exportLoop h.cwd output_dir h.exportErr 0 h.slideCount).2 <;> cases h.closeErr <;>
    simp [exportLoop_errLines] <;> exact ⟨_, rfl⟩

/-- C10: in `export_slides` of `exportSlidesMacro.py`, whenever
`getCurrentController().getSlideShowController()` returns a truthy value,
the whole per-slide export path is skipped: no PNG file is written, yet the
document is still closed (`doc.close(True)`) and the function returns `True`. -/
theorem C10_slideshow_branch_skips_export (input_file output_dir : String) (h : Host)
    (hc : h.connectErr = none) (hd : h.desktopErr = none) (hl : h.loadErr = none)
    (hctrl : h.ctrlErr = none) (hshow : h.slideShow = true) (hclose : h.closeErr = none) :
    (export_slides input_file output_dir h).ok = true ∧
    writesOf (export_slides input_file output_dir h).trace = [] ∧
    closesOf (export_slides input_file output_dir h).trace = [true] := by
  simp [export_slides, hc, hd, hl, hctrl, hshow, hclose]

/-- Witness for C10 at a concrete host with 3 slides and a truthy slide-show
controller. -/
theorem C10_witness :
    (export_slides "deck.pptx" "out" { okHost 3 with slideShow := true }).ok = true ∧
    writesOf (export_slides "deck.pptx" "out" { okHost 3 with slideShow := true }).trace = [] ∧
    closesOf (export_slides "deck.pptx" "out" { okHost 3 with slideShow := true }).trace =
      [true] :=
  C10_slideshow_branch_skips_export "deck.pptx" "out"
    { okHost 3 with slideShow := true } rfl rfl rfl rfl rfl rfl

/-- C5: for every input file whose document load fails, both scripts return
failure, write no output file, never reach the export loop or the close
call, and the CLI entry point exits with status 1. -/
theorem C5_load_failure_no_writes (input_file output_dir prog m : String) (h : Host)
    (hc : h.connectErr = none) (hd : h.desktopErr = none) (hl : h.loadErr = some m) :
    ((export_slides_to_png input_file output_dir h).ok = false ∧
     writesOf (export_slides_to_png input_file output_dir h).trace = [] ∧
     closesOf (export_slides_to_png input_file output_dir h).trace = [] ∧
     (export_slides_to_png_main [prog, input_file, output_dir] h).1 = 1) ∧
    ((export_slides input_file output_dir h).ok = false ∧
     writesOf (export_slides input_file output_dir h).trace = [] ∧
     closesOf (export_slides input_file output_dir h).trace = [] ∧
     (export_slides_main [prog, input_file, output_dir] h).1 = 1) := by
  simp [export_slides_to_png, export_slides, export_slides_to_png_main, export_slides_main,
    hc, hd, hl]

/-- Witness for C5 at a concrete host on which the load raises. -/
theorem C5_witness :
    ((export_slides_to_png "missing.pptx" "out" { okHost 2 with loadErr := some "no such file" }).ok
        = false ∧
     writesOf (export_slides_to_png "missing.pptx" "out"
        { okHost 2 with loadErr := some "no such file" }).trace = [] ∧
     closesOf (export_slides_to_png "missing.pptx" "out"
        { okHost 2 with loadErr := some "no such file" }).trace = [] ∧
     (export_slides_to_png_main ["prog", "missing.pptx", "out"]
        { okHost 2 with loadErr := some "no such file" }).1 = 1) ∧
    ((export_slides "missing.pptx" "out" { okHost 2 with loadErr := some "no such file" }).ok
        = false ∧
     writesOf (export_slides "missing.pptx" "out"
        { okHost 2 with loadErr := some "no such file" }).trace = [] ∧
     closesOf (export_slides "missing.pptx" "out"
        { okHost 2 with loadErr := some "no such file" }).trace = [] ∧
     (export_slides_main ["prog", "missing.pptx", "out"]
        { okHost 2 with loadErr := some "no such file" }).1 = 1) :=
  C5_load_failure_no_writes "missing.pptx" "out" "prog" "no such file"
    { okHost 2 with loadErr := some "no such file" } rfl rfl rfl

/-- C8: for every command-line invocation whose argument count is not
exactly two positional arguments (three entries of `sys.argv` counting the
program name), each script prints its usage line to stderr and exits with
status 1, without attempting a connection and without writing any file. -/
theorem C8_usage_on_wrong_arg_count (argv : List String) (h : Host)
    (hlen : argv.length ≠ 3) :
    ((export_slides_to_png_main argv h).1 = 1 ∧
     Event.connect ∉ (export_slides_to_png_main argv h).2 ∧
     writesOf (export_slides_to_png_main argv h).2 = [] ∧
     errLinesOf (export_slides_to_png_main argv h).2 =
       ["Usage: python exportSlides.py <input_pptx> <output_dir>"]) ∧
    ((export_slides_main argv h).1 = 1 ∧
     Event.connect ∉ (export_slides_main argv h).2 ∧
     writesOf (export_slides_main argv h).2 = [] ∧
     errLinesOf (export_slides_main argv h).2 =
       ["Usage: python exportSlidesMacro.py <input_pptx> <output_dir>"]) := by
  rcases argv with _ | ⟨a, _ | ⟨b, _ | ⟨c, _ | ⟨d, rest⟩⟩⟩⟩
  · simp [export_slides_to_png_main, export_slides_main]
  · simp [export_slides_to_png_main, export_slides_main]
  · simp [export_slides_to_png_main, export_slides_main]
  · simp at hlen
  · simp [export_slides_to_png_main, export_slides_main]

/-- Witness for C8 at a one-argument invocation. -/
theorem C8_witness :
    ((export_slides_to_png_main ["prog"] (okHost 1)).1 = 1 ∧
     Event.connect ∉ (export_slides_to_png_main ["prog"] (okHost 1)).2 ∧
     writesOf (export_slides_to_png_main ["prog"] (okHost 1)).2 = [] ∧
     errLinesOf (export_slides_to_png_main ["prog"] (okHost 1)).2 =
       ["Usage: python exportSlides.py <input_pptx> <output_dir>"]) ∧
    ((export_slides_main ["prog"] (okHost 1)).1 = 1 ∧
     Event.connect ∉ (export_slides_main ["prog"] (okHost 1)).2 ∧
     writesOf (export_slides_main ["prog"] (okHost 1)).2 = [] ∧
     errLinesOf (export_slides_main ["prog"] (okHost 1)).2 =
       ["Usage: python exportSlidesMacro.py <input_pptx> <output_dir>"]) :=
  C8_usage_on_wrong_arg_count ["prog"] (okHost 1) (by decide)

/-- C1 counterexample: on a host whose slide-show controller is truthy, a
1-slide document makes `export_slides_to_png` write one file while
`export_slides` writes none, so the two functions are not behaviourally
identical on every host state. -/
theorem C1_counterexample :
    ¬ ((export_slides_to_png "deck.pptx" "out" { okHost 1 with slideShow := true }).ok =
         (export_slides "deck.pptx" "out" { okHost 1 with slideShow := true }).ok ∧
       writesOf
           (export_slides_to_png "deck.pptx" "out" { okHost 1 with slideShow := true }).trace =
         writesOf (export_slides "deck.pptx" "out" { okHost 1 with slideShow := true }).trace) := by
  decide

/-- C1 (amended): whenever the slide-show-controller lookup succeeds and
returns a falsy value, `export_slides_to_png` and `export_slides` return the
same boolean result and write the same files. -/
theorem C1_equiv_when_controller_falsy (input_file output_dir : String) (h : Host)
    (hctrl : h.ctrlErr = none) (hshow : h.slideShow = false) :
    (export_slides_to_png input_file output_dir h).ok =
      (export_slides input_file output_dir h).ok ∧
    writesOf (export_slides_to_png input_file output_dir h).trace =
      writesOf (export_slides input_file output_dir h).trace := by
  unfold export_slides_to_png export_slides
  rw [hctrl, hshow]
  cases h.connectErr <;> cases h.desktopErr <;> cases h.loadErr <;> cases h.presErr <;>
    cases (exportLoop h.cwd output_dir h.exportErr 0 h.slideCount).2 <;> cases h.closeErr <;>
    simp

/-- Witness for C1 at an all-successful host with 2 slides. -/
theorem C1_witness :
    (export_slides_to_png "deck.pptx" "out" (okHost 2)).ok =
      (export_slides "deck.pptx" "out" (okHost 2)).ok ∧
    writesOf (export_slides_to_png "deck.pptx" "out" (okHost 2)).trace =
      writesOf (export_slides "deck.pptx" "out" (okHost 2)).trace :=
  C1_equiv_when_controller_falsy "deck.pptx" "out" (okHost 2) rfl rfl

/-- C2 counterexample: the load request issued by `export_slides` of
`exportSlidesMacro.py` carries an empty property list, so its Hidden
property is not set. -/
theorem C2_counterexample :
    ¬ ∀ req ∈ loadsOf (export_slides "deck.pptx" "out" (okHost 1)).trace,
        ("Hidden", true) ∈ req.2.2.2 := by
  decide

/-- C2 (amended): every load request of `exportSlides.py` targets the new
top-level frame `"_blank"` with search flags 0 and exactly the property
`Hidden = True` (no filter overrides); every load request of
`exportSlidesMacro.py` targets `"_blank"` with search flags 0 and an empty
property list (no Hidden property and no filter overrides). -/
theorem C2_load_request_properties (input_file output_dir : String) (h : Host) :
    (∀ req ∈ loadsOf (export_slides_to_png input_file output_dir h).trace,
       req = (systemPathToFileUrl (abspath h.cwd input_file), "_blank", 0,
         [("Hidden", true)])) ∧
    (∀ req ∈ loadsOf (export_slides input_file output_dir h).trace,
       req = (systemPathToFileUrl (abspath h.cwd input_file), "_blank", 0,
         ([] : List (String × Bool)))) :=
  ⟨png_loads input_file output_dir h, slides_loads input_file output_dir h⟩

/-- Witness for C2 at an all-successful host. -/
theorem C2_witness :
    ("file:///work/deck.pptx", "_blank", (0 : Nat), [(("Hidden" : String), true)]) =
      (systemPathToFileUrl (abspath (okHost 1).cwd "deck.pptx"), "_blank", 0,
        [("Hidden", true)]) ∧
    ("file:///work/deck.pptx", "_blank", (0 : Nat), ([] : List (String × Bool))) =
      (systemPathToFileUrl (abspath (okHost 1).cwd "deck.pptx"), "_blank", 0, []) :=
  ⟨(C2_load_request_properties "deck.pptx" "out" (okHost 1)).1 _ (by decide),
   (C2_load_request_properties "deck.pptx" "out" (okHost 1)).2 _ (by decide)⟩

/-- C3 counterexample: on a host whose slide-show controller is truthy,
`export_slides` of `exportSlidesMacro.py` reports success for a 1-slide
presentation yet writes no file, so not every successful run writes exactly
N files. -/
theorem C3_counterexample :
    (export_slides "deck.pptx" "out" { okHost 1 with slideShow := true }).ok = true ∧
    writesOf (export_slides "deck.pptx" "out" { okHost 1 with slideShow := true }).trace ≠
      expectedWrites "/work" "out" 1 := by
  decide

/-- C3 (amended): a successful run of `export_slides_to_png`, and a
successful run of `export_slides` in which the slide-show-controller lookup
returned a falsy value, writes exactly N files `slide_001.png` …
`slide_{N:03d}.png` into the output directory, the k-th file produced from
the slide with 0-based index k-1, in document order; and with 0 slides and
no host failure the loop runs zero times, zero files are written and success
is returned. -/
theorem C3_numbered_outputs (input_file output_dir : String) (h : Host) :
    ((export_slides_to_png input_file output_dir h).ok = true →
       writesOf (export_slides_to_png input_file output_dir h).trace =
         expectedWrites h.cwd output_dir h.slideCount) ∧
    ((export_slides input_file output_dir h).ok = true → h.slideShow = false →
       writesOf (export_slides input_file output_dir h).trace =
         expectedWrites h.cwd output_dir h.slideCount) ∧
    (h.slideCount = 0 → h.connectErr = none → h.desktopErr = none → h.loadErr = none →
       h.presErr = none → h.closeErr = none →
       (export_slides_to_png input_file output_dir h).ok = true ∧
       writesOf (export_slides_to_png input_file output_dir h).trace = []) := by
  refine ⟨fun hok => ?_, fun hok hshow => ?_, fun h0 hc hd hl hp hcl => ?_⟩
  · obtain ⟨htr, hloop⟩ := png_success_trace input_file output_dir h hok
    rw [htr, exportLoop_none_eq _ _ _ _ 0 hloop]
    simp [writesOf_map_write, expectedWrites, List.range_eq_range']
  · obtain ⟨htr, hloop⟩ := slides_success_trace input_file output_dir h hshow hok
    rw [htr, exportLoop_none_eq _ _ _ _ 0 hloop]
    simp [writesOf_map_write, expectedWrites, List.range_eq_range']
  · constructor
    · simp [export_slides_to_png, hc, hd, hl, hp, hcl, h0, exportLoop]
    · simp [export_slides_to_png, hc, hd, hl, hp, hcl, h0, exportLoop]

/-- Witness for C3 at an all-successful host with 2 slides. -/
theorem C3_witness :
    writesOf (export_slides_to_png "deck.pptx" "out" (okHost 2)).trace =
      expectedWrites (okHost 2).cwd "out" (okHost 2).slideCount ∧
    writesOf (export_slides "deck.pptx" "out" (okHost 2)).trace =
      expectedWrites (okHost 2).cwd "out" (okHost 2).slideCount :=
  ⟨(C3_numbered_outputs "deck.pptx" "out" (okHost 2)).1 (by decide),
   (C3_numbered_outputs "deck.pptx" "out" (okHost 2)).2.1 (by decide) rfl⟩

/-- C4: each export function returns `False` exactly when some step raised
an exception, in which case precisely one line prefixed `Error: ` is printed
to stderr; the CLI entry point then exits with status 1. -/
theorem C4_catch_print_return_false (input_file output_dir prog : String) (h : Host) :
    ((export_slides_to_png input_file output_dir h).ok = false ↔
       ∃ m, errLinesOf (export_slides_to_png input_file output_dir h).trace =
         ["Error: " ++ m]) ∧
    ((export_slides input_file output_dir h).ok = false ↔
       ∃ m, errLinesOf (export_slides input_file output_dir h).trace = ["Error: " ++ m]) ∧
    ((export_slides_to_png input_file output_dir h).ok = false →
       (export_slides_to_png_main [prog, input_file, output_dir] h).1 = 1) ∧
    ((export_slides input_file output_dir h).ok = false →
       (export_slides_main [prog, input_file, output_dir] h).1 = 1) := by
  refine ⟨png_fail_iff _ _ _, slides_fail_iff _ _ _, fun hok => ?_, fun hok => ?_⟩
  · simp [export_slides_to_png_main, hok]
  · simp [export_slides_main, hok]

/-- Witness for C4 at a host on which the connection raises. -/
theorem C4_witness :
    (∃ m, errLinesOf (export_slides_to_png "deck.pptx" "out"
        { okHost 1 with connectErr := some "connection refused" }).trace =
      ["Error: " ++ m]) ∧
    (∃ m, errLinesOf (export_slides "deck.pptx" "out"
        { okHost 1 with connectErr := some "connection refused" }).trace =
      ["Error: " ++ m]) ∧
    (export_slides_to_png_main ["prog", "deck.pptx", "out"]
        { okHost 1 with connectErr := some "connection refused" }).1 = 1 ∧
    (export_slides_main ["prog", "deck.pptx", "out"]
        { okHost 1 with connectErr := some "connection refused" }).1 = 1 :=
  ⟨(C4_catch_print_return_false "deck.pptx" "out" "prog"
      { okHost 1 with connectErr := some "connection refused" }).1.mp (by decide),
   (C4_catch_print_return_false "deck.pptx" "out" "prog"
      { okHost 1 with connectErr := some "connection refused" }).2.1.mp (by decide),
   (C4_catch_print_return_false "deck.pptx" "out" "prog"
      { okHost 1 with connectErr := some "connection refused" }).2.2.1 (by decide),
   (C4_catch_print_return_false "deck.pptx" "out" "prog"
      { okHost 1 with connectErr := some "connection refused" }).2.2.2 (by decide)⟩

/-- C6: if exporting the slide with 0-based index k raises after the first k
slides were exported, both scripts keep the k files already written (no
cleanup), print only the exception message (no per-slide report), never
reach the close call, and return `False`. -/
theorem C6_failure_mid_loop (input_file output_dir m : String) (h : Host) (k : Nat)
    (hc : h.connectErr = none) (hd : h.desktopErr = none) (hl : h.loadErr = none)
    (hp : h.presErr = none) (hctrl : h.ctrlErr = none) (hshow : h.slideShow = false)
    (hk : k < h.slideCount)
    (hprev : ∀ j, j < k → h.exportErr j = none) (hfail : h.exportErr k = some m) :
    ((export_slides_to_png input_file output_dir h).ok = false ∧
     writesOf (export_slides_to_png input_file output_dir h).trace =
       expectedWrites h.cwd output_dir k ∧
     closesOf (export_slides_to_png input_file output_dir h).trace = [] ∧
     errLinesOf (export_slides_to_png input_file output_dir h).trace = ["Error: " ++ m]) ∧
    ((export_slides input_file output_dir h).ok = false ∧
     writesOf (export_slides input_file output_dir h).trace =
       expectedWrites h.cwd output_dir k ∧
     closesOf (export_slides input_file output_dir h).trace = [] ∧
     errLinesOf (export_slides input_file output_dir h).trace = ["Error: " ++ m]) := by
  have hloop : exportLoop h.cwd output_dir h.exportErr 0 h.slideCount =
      ((List.range' 0 k).map fun j => Event.write (slideUrl h.cwd output_dir j) j "png",
        some m) :=
    exportLoop_fail_eq h.cwd output_dir h.exportErr m k 0 h.slideCount
      (fun j hj => by simpa using hprev j hj) (by simpa using hfail) hk
  simp [export_slides_to_png, export_slides, hc, hd, hl, hp, hctrl, hshow, hloop,
    writesOf_map_write, errLinesOf_map_write, closesOf_map_write,
    expectedWrites, List.range_eq_range']

/-- Witness for C6 at a 3-slide host whose second export raises. -/
theorem C6_witness :
    ((export_slides_to_png "deck.pptx" "out" exportFailHost).ok = false ∧
     writesOf (export_slides_to_png "deck.pptx" "out" exportFailHost).trace =
       expectedWrites exportFailHost.cwd "out" 1 ∧
     closesOf (export_slides_to_png "deck.pptx" "out" exportFailHost).trace = [] ∧
     errLinesOf (export_slides_to_png "deck.pptx" "out" exportFailHost).trace =
       ["Error: " ++ "disk full"]) ∧
    ((export_slides "deck.pptx" "out" exportFailHost).ok = false ∧
     writesOf (export_slides "deck.pptx" "out" exportFailHost).trace =
       expectedWrites exportFailHost.cwd "out" 1 ∧
     closesOf (export_slides "deck.pptx" "out" exportFailHost).trace = [] ∧
     errLinesOf (export_slides "deck.pptx" "out" exportFailHost).trace =
       ["Error: " ++ "disk full"]) :=
  C6_failure_mid_loop "deck.pptx" "out" "disk full" exportFailHost 1
    rfl rfl rfl rfl rfl rfl (by decide)
    (fun j hj => by rw [Nat.lt_one_iff.mp hj]; rfl) rfl

/-- C7: on every successful run of either script the document is closed
exactly once, with argument `True`, as the final event — after the whole
export loop — and no save ever occurs, so modifications are discarded. -/
theorem C7_close_after_export (input_file output_dir : String) (h : Host) :
    ((export_slides_to_png input_file output_dir h).ok = true →
       ∃ evs, (export_slides_to_png input_file output_dir h).trace =
           evs ++ [Event.close true] ∧
         closesOf evs = [] ∧
         Event.save ∉ (export_slides_to_png input_file output_dir h).trace) ∧
    ((export_slides input_file output_dir h).ok = true →
       ∃ evs, (export_slides input_file output_dir h).trace = evs ++ [Event.close true] ∧
         closesOf evs = [] ∧
         Event.save ∉ (export_slides input_file output_dir h).trace) := by
  constructor
  · intro hok
    obtain ⟨htr, hloop⟩ := png_success_trace input_file output_dir h hok
    refine ⟨Event.connect ::
        Event.load (systemPathToFileUrl (abspath h.cwd input_file)) "_blank" 0
          [("Hidden", true)] ::
        (exportLoop h.cwd output_dir h.exportErr 0 h.slideCount).1, ?_, ?_, ?_⟩
    · rw [htr]
    · simp [exportLoop_closes]
    · exact png_no_save input_file output_dir h
  · intro hok
    cases hshow : h.slideShow with
    | true =>
      have htr := slides_success_trace_show input_file output_dir h hshow hok
      refine ⟨[Event.connect,
          Event.load (systemPathToFileUrl (abspath h.cwd input_file)) "_blank" 0 []],
          ?_, ?_, ?_⟩
      · rw [htr]; rfl
      · rfl
      · exact slides_no_save input_file output_dir h
    | false =>
      obtain ⟨htr, hloop⟩ := slides_success_trace input_file output_dir h hshow hok
      refine ⟨Event.connect ::
          Event.load (systemPathToFileUrl (abspath h.cwd input_file)) "_blank" 0 [] ::
          (exportLoop h.cwd output_dir h.exportErr 0 h.slideCount).1, ?_, ?_, ?_⟩
      · rw [htr]
      · simp [exportLoop_closes]
      · exact slides_no_save input_file output_dir h

/-- Witness for C7 at an all-successful host with 2 slides. -/
theorem C7_witness :
    ∃ evs, (export_slides_to_png "deck.pptx" "out" (okHost 2)).trace =
        evs ++ [Event.close true] ∧
      closesOf evs = [] ∧
      Event.save ∉ (export_slides_to_png "deck.pptx" "out" (okHost 2)).trace :=
  (C7_close_after_export "deck.pptx" "out" (okHost 2)).1 (by decide)

/-- C9 counterexample: the load request issued by `export_slides_to_png`
carries only the Hidden property — it has no ReadOnly property — so the
document is not opened read-only. -/
theorem C9_counterexample :
    ¬ ∀ req ∈ loadsOf (export_slides_to_png "deck.pptx" "out" (okHost 1)).trace,
        ("ReadOnly", true) ∈ req.2.2.2 := by
  decide

/-- C9 (amended): neither script ever invokes a save or store operation on
the document, so no changes to the input file are persisted; however the
document is not explicitly opened read-only — no load request of either
script carries a ReadOnly property. -/
theorem C9_no_save_no_readonly (input_file output_dir : String) (h : Host) :
    Event.save ∉ (export_slides_to_png input_file output_dir h).trace ∧
    Event.save ∉ (export_slides input_file output_dir h).trace ∧
    (∀ req ∈ loadsOf (export_slides_to_png input_file output_dir h).trace,
       ("ReadOnly", true) ∉ req.2.2.2) ∧
    (∀ req ∈ loadsOf (export_slides input_file output_dir h).trace,
       ("ReadOnly", true) ∉ req.2.2.2) := by
  refine ⟨png_no_save input_file output_dir h, slides_no_save input_file output_dir h,
    fun req hreq => ?_, fun req hreq => ?_⟩
  · rw [png_loads input_file output_dir h req hreq]; simp
  · rw [slides_loads input_file output_dir h req hreq]; simp

/-- Witness for C9 at an all-successful host. -/
theorem C9_witness :
    Event.save ∉ (export_slides_to_png "deck.pptx" "out" (okHost 1)).trace ∧
    Event.save ∉ (export_slides "deck.pptx" "out" (okHost 1)).trace :=
  ⟨(C9_no_save_no_readonly "deck.pptx" "out" (okHost 1)).1,
   (C9_no_save_no_readonly "deck.pptx" "out" (okHost 1)).2.1⟩

end SlideExport
